import Mathlib

/-!
Verification development for the Interactive Trainer backend.

The definitions below are a shallow embedding of the Python sources:
  * `src/server/routes.py` — encoding classifier, Gemini session cache,
    chapter-assistant endpoint, speak endpoint, chat endpoint;
  * `src/server/clients.py` — `send_to_gemini`;
  * `src/app.py` — the legacy generation of the chat endpoint.

External effects (file system, network calls to the Gemini / Cloud Speech
providers) are modelled as explicit environment parameters recording what the
provider would answer; counters record how many provider calls the embedded
code performs.
-/

namespace InteractiveTrainer

/- ## Python string primitives

Faithful models of the `str` operations the sources use: `in` (substring
test), `endswith`, `lower`, `upper`, `strip`. Python `strip()` removes the
whitespace characters space, tab, newline, carriage return, vertical tab and
form feed from both ends. `lower`/`upper` are used by the sources only on
ASCII data, where `Char.toLower`/`Char.toUpper` agree with Python. -/

def pfxCheck : List Char → List Char → Bool
  | [], _ => true
  | _ :: _, [] => false
  | a :: as, b :: bs => a == b && pfxCheck as bs

def subOccurs (needle : List Char) : List Char → Bool
  | [] => pfxCheck needle []
  | b :: bs => pfxCheck needle (b :: bs) || subOccurs needle bs

def strContains (hay needle : String) : Bool :=
  subOccurs needle.data hay.data

def strEndsWith (s sfx : String) : Bool :=
  pfxCheck sfx.data.reverse s.data.reverse

def pyIsSpace (ch : Char) : Bool :=
  ch == ' ' || ch == '\t' || ch == '\n' || ch == '\r' || ch == '\x0B' || ch == '\x0C'

def pyStrip (s : String) : String :=
  ⟨((s.data.dropWhile pyIsSpace).reverse.dropWhile pyIsSpace).reverse⟩

def pyLower (s : String) : String :=
  ⟨s.data.map Char.toLower⟩

def pyUpper (s : String) : String :=
  ⟨s.data.map Char.toUpper⟩

/- ## String literals appearing in the sources -/

def cWebm : String := "webm"

def cOgg : String := "ogg"

def cOpus : String := "opus"

def cVorbis : String := "vorbis"

def cWav : String := "wav"

def cMp3 : String := "mp3"

def cFlac : String := "flac"

def cDotWebm : String := ".webm"

def cDotOgg : String := ".ogg"

def cDotOpus : String := ".opus"

def cDotWav : String := ".wav"

def cDotMp3 : String := ".mp3"

def cDotFlac : String := ".flac"

def cPROCESSING : String := "PROCESSING"

def cACTIVE : String := "ACTIVE"

def cFAILEDSTATE : String := "FAILED"

def cNOT_IN_SCOPE : String := "NOT_IN_SCOPE"

def cScopeRefusal : String :=
  "I can only answer questions based on the content of this chapter."

def cBuildApology : String :=
  "Sorry, I couldn\x27t prepare the context for this chapter. Please try again later."

def cSendApology : String :=
  "Sorry, I encountered an error while trying to answer your question."

def cMissingQuery : String := "Missing query"

def cMissingText : String := "Missing \x27text\x27 in request body"

def cEmptyText : String := "\x27text\x27 cannot be empty"

def cTtsUnavail : String := "Backend TTS service not available"

def cSttUnavail : String := "Backend STT service not available"

def cSynthFailedPre : String := "TTS Synthesis failed: "

def cChatUnavail : String := "Chat service (Gemini) is not available."

def cChatRefusal : String := "I cannot provide a response to that query."

def cProcessTrouble : String :=
  "Sorry, I had trouble processing that request. Please try again."

def cBlockedMsg : String := "Gemini response blocked or empty"

def cEmptyMsg : String := "Cannot send empty message to Gemini"

def cApiFailedPre : String := "Gemini API call failed: "

def cEmptyAudio : String := "Received empty audio file"

def cEncodingErr : String :=
  "Could not determine audio encoding. Please provide WEBM/Opus, OGG/Opus, WAV, MP3, or FLAC."

/- ## Encoding classifier (`routes.py`, `get_stt_encoding`, lines 26-63)

`AudioEncoding` embeds `speech.RecognitionConfig.AudioEncoding`; only the
members named by the source are listed. Mimetype and filename are `Option`s:
`none` models Python `None`, and the embedded code also honours Python
truthiness (the empty string is falsy, so `if mimetype:` skips it). -/

inductive AudioEncoding where
  | ENCODING_UNSPECIFIED
  | WEBM_OPUS
  | OGG_OPUS
  | LINEAR16
  | MP3
  | FLAC
deriving DecidableEq, Repr

/-- The mimetype block of `get_stt_encoding` (routes.py lines 30-43). -/
def classify_mimetype (mimetype : Option String) : AudioEncoding :=
  match mimetype with
  | none => AudioEncoding.ENCODING_UNSPECIFIED
  | some m =>
    if m = "" then AudioEncoding.ENCODING_UNSPECIFIED
    else
      let ml := pyLower m
      if strContains ml cWebm && (strContains ml cOpus || strContains ml cVorbis) then
        AudioEncoding.WEBM_OPUS
      else if strContains ml cOgg && (strContains ml cOpus || strContains ml cVorbis) then
        AudioEncoding.OGG_OPUS
      else if strContains ml cWav then AudioEncoding.LINEAR16
      else if strContains ml cMp3 then AudioEncoding.MP3
      else if strContains ml cFlac then AudioEncoding.FLAC
      else AudioEncoding.ENCODING_UNSPECIFIED

/-- The filename-fallback block of `get_stt_encoding` (routes.py lines 46-57). -/
def classify_filename (filename : Option String) : AudioEncoding :=
  match filename with
  | none => AudioEncoding.ENCODING_UNSPECIFIED
  | some f =>
    if f = "" then AudioEncoding.ENCODING_UNSPECIFIED
    else
      let fl := pyLower f
      if strEndsWith fl cDotWebm then AudioEncoding.WEBM_OPUS
      else if strEndsWith fl cDotOgg || strEndsWith fl cDotOpus then AudioEncoding.OGG_OPUS
      else if strEndsWith fl cDotWav then AudioEncoding.LINEAR16
      else if strEndsWith fl cDotMp3 then AudioEncoding.MP3
      else if strEndsWith fl cDotFlac then AudioEncoding.FLAC
      else AudioEncoding.ENCODING_UNSPECIFIED

/-- `get_stt_encoding` (routes.py lines 26-63): the filename is consulted only
when the mimetype block left the encoding `ENCODING_UNSPECIFIED`. -/
def get_stt_encoding (mimetype filename : Option String) : AudioEncoding :=
  let enc := classify_mimetype mimetype
  if enc = AudioEncoding.ENCODING_UNSPECIFIED then classify_filename filename else enc

/-- The inline encoding determination of the legacy generation
(`src/app.py` lines 207-228). Differences from `get_stt_encoding`: the
mimetype is matched case-sensitively (no `lower()`), `vorbis` is not
recognized, FLAC is absent from both tables, and the filename fallback does
not accept the `.opus` extension. -/
def legacy_get_encoding (mimetype filename : Option String) : AudioEncoding :=
  let enc :=
    match mimetype with
    | none => AudioEncoding.ENCODING_UNSPECIFIED
    | some m =>
      if m = "" then AudioEncoding.ENCODING_UNSPECIFIED
      else if strContains m cWebm && strContains m cOpus then AudioEncoding.WEBM_OPUS
      else if strContains m cOgg && strContains m cOpus then AudioEncoding.OGG_OPUS
      else if strContains m cWav then AudioEncoding.LINEAR16
      else if strContains m cMp3 then AudioEncoding.MP3
      else AudioEncoding.ENCODING_UNSPECIFIED
  if enc = AudioEncoding.ENCODING_UNSPECIFIED then
    match filename with
    | none => enc
    | some f =>
      if f = "" then enc
      else
        let fl := pyLower f
        if strEndsWith fl cDotWebm then AudioEncoding.WEBM_OPUS
        else if strEndsWith fl cDotOgg then AudioEncoding.OGG_OPUS
        else if strEndsWith fl cDotWav then AudioEncoding.LINEAR16
        else if strEndsWith fl cDotMp3 then AudioEncoding.MP3
        else enc
  else enc

/- ## Audio dispatch of the chat endpoints

What each generation of `handle_chat` does with an audio blob before any
speech-provider call: `reject s m` is an early error response with HTTP
status `s`, `proceed enc` means the handler goes on to build a
`RecognitionConfig` with `enc` and calls the STT provider. -/

inductive AudioDispatch where
  | reject (status : Nat) (msg : String)
  | proceed (enc : AudioEncoding)
deriving DecidableEq, Repr

/-- Audio branch of `handle_chat` in `routes.py` (lines 231-247): empty blob
is a 400; an `ENCODING_UNSPECIFIED` classification is rejected with 415
before the provider is called. -/
def routes_audio_dispatch (speech_up : Bool) (audioLen : Nat)
    (mimetype filename : Option String) : AudioDispatch :=
  if speech_up = false then AudioDispatch.reject 503 cSttUnavail
  else if audioLen = 0 then AudioDispatch.reject 400 cEmptyAudio
  else
    let enc := get_stt_encoding mimetype filename
    if enc = AudioEncoding.ENCODING_UNSPECIFIED then AudioDispatch.reject 415 cEncodingErr
    else AudioDispatch.proceed enc

/-- Audio branch of the legacy `handle_chat` in `src/app.py` (lines 193-246):
after the encoding determination the rejection on `ENCODING_UNSPECIFIED` is
commented out (lines 230-233) — the handler only logs a warning and proceeds
to call the STT provider with the unspecified encoding. -/
def legacy_audio_dispatch (speech_up : Bool) (audioLen : Nat)
    (mimetype filename : Option String) : AudioDispatch :=
  if speech_up = false then AudioDispatch.reject 503 cSttUnavail
  else if audioLen = 0 then AudioDispatch.reject 400 cEmptyAudio
  else AudioDispatch.proceed (legacy_get_encoding mimetype filename)

/- ## Asset readiness polling (`routes.py`, `wait_for_files_active`, lines 95-112)

The Gemini file object exposes `state.name` as a string; the environment is a
trace `Nat → String` giving the state observed by the n-th `genai.get_file`
call. The source loop `while file.state.name == "PROCESSING"` has no attempt
or time bound, so the embedding takes a fuel argument bounding how many polls
we observe: `none` means the loop is still running after `fuel` polls (the
source has not returned), `some s` means the loop exited having observed the
non-PROCESSING state `s`. On exit the source raises (and catches, returning
`False`) unless the state is ACTIVE, hence `Option Bool` for the result. -/

def pollLoop (trace : Nat → String) : Nat → Nat → Option String
  | 0, _ => none
  | fuel + 1, i => if trace i = cPROCESSING then pollLoop trace fuel (i + 1) else some (trace i)

def wait_for_files_active (trace : Nat → String) (fuel : Nat) : Option Bool :=
  match pollLoop trace fuel 0 with
  | none => none
  | some s => if s = cACTIVE then some true else some false

/-- Modelled from the spec: the boundedness property §5 ascribes to the
polling loop — some attempt budget after which the loop has always returned
(with success or explicit failure), whatever the asset's state trace does. -/
def polling_is_bounded : Prop :=
  ∃ N, ∀ trace : Nat → String, (wait_for_files_active trace N).isSome = true

/- ## Gemini session cache (`routes.py`, lines 92-161)

`gemini_sessions` is a plain module-level dict keyed by chapter number; it is
modelled as an association list with first-match lookup and prepend insert
(equal to dict overwrite semantics). A session is identified by the value of
the upload counter at its creation, so distinct uploads yield distinct
session tags. `BuildEnv` records what the external world answers during one
build: whether the content file exists, whether `genai.upload_file` succeeds,
the asset state trace polled by `wait_for_files_active` together with the
poll budget we observe, and whether `start_chat` succeeds. -/

def lookupSession : List (Nat × Nat) → Nat → Option Nat
  | [], _ => none
  | (k, v) :: rest, c => if k = c then some v else lookupSession rest c

def insertSession (cache : List (Nat × Nat)) (c tag : Nat) : List (Nat × Nat) :=
  (c, tag) :: cache

structure CacheState where
  sessions : List (Nat × Nat)
  uploads : Nat
deriving DecidableEq, Repr

structure BuildEnv where
  contentExists : Bool
  uploadOk : Bool
  fileTrace : Nat → String
  waitFuel : Nat
  startChatOk : Bool

def bump (st : CacheState) : CacheState :=
  { st with uploads := st.uploads + 1 }

/-- All stages of one build succeed under `env` (and the polling loop returns
within the observed budget). -/
def buildOk (env : BuildEnv) : Prop :=
  env.contentExists = true ∧ env.uploadOk = true ∧
    wait_for_files_active env.fileTrace env.waitFuel = some true ∧ env.startChatOk = true

/-- `get_or_create_gemini_session` (routes.py lines 114-161). Result `none`
means the call has not returned (the polling loop is still running after
`env.waitFuel` polls); `some (r, st)` is a return with result `r` (`none` for
the Python `return None` failure paths) and the cache state `st` after the
call. The uploads counter is incremented exactly when `genai.upload_file` is
invoked; the dict is written only on the fully successful path (line 152),
so every failure path leaves `sessions` untouched. -/
def get_or_create_gemini_session (env : BuildEnv) (st : CacheState) (c : Nat) :
    Option (Option Nat × CacheState) :=
  match lookupSession st.sessions c with
  | some s => some (some s, st)
  | none =>
    if env.contentExists = false then some (none, st)
    else if env.uploadOk = false then some (none, bump st)
    else
      match wait_for_files_active env.fileTrace env.waitFuel with
      | none => none
      | some false => some (none, bump st)
      | some true =>
        if env.startChatOk = false then some (none, bump st)
        else
          some (some st.uploads,
            { sessions := insertSession st.sessions c st.uploads, uploads := st.uploads + 1 })

/- ## Interleaving model of two concurrent first-time requests (claim C1)

`get_or_create_gemini_session` runs on the Flask worker threads with no lock:
the cache check (line 116) and the build-and-insert sequence (lines 131-152)
are separated by blocking network calls and `time.sleep`, so steps of two
requests for the same chapter interleave. Each thread is a two-step program
over the shared `(cache, uploads)` state: `atCheck` performs the dict lookup
and either finishes with the cached session or moves to `atBuild`; `atBuild`
performs the success-path build (upload counted, chat session created with a
fresh tag, dict write) and finishes with the fresh session. A schedule is the
list of which thread moves next (`true` = thread 1). -/

inductive TPhase where
  | atCheck
  | atBuild
  | finished (session : Nat)
deriving DecidableEq, Repr

structure Conc2State where
  cache : List (Nat × Nat)
  uploads : Nat
  t1 : TPhase
  t2 : TPhase
deriving DecidableEq, Repr

def threadStep (c : Nat) (cache : List (Nat × Nat)) (uploads : Nat) (ph : TPhase) :
    List (Nat × Nat) × Nat × TPhase :=
  match ph with
  | TPhase.atCheck =>
    match lookupSession cache c with
    | some s => (cache, uploads, TPhase.finished s)
    | none => (cache, uploads, TPhase.atBuild)
  | TPhase.atBuild =>
    (insertSession cache c uploads, uploads + 1, TPhase.finished uploads)
  | TPhase.finished s => (cache, uploads, TPhase.finished s)

def schedStep (c : Nat) (st : Conc2State) (pickFirst : Bool) : Conc2State :=
  if pickFirst then
    let r := threadStep c st.cache st.uploads st.t1
    { st with cache := r.1, uploads := r.2.1, t1 := r.2.2 }
  else
    let r := threadStep c st.cache st.uploads st.t2
    { st with cache := r.1, uploads := r.2.1, t2 := r.2.2 }

def runSched (c : Nat) : List Bool → Conc2State → Conc2State
  | [], st => st
  | b :: rest, st => runSched c rest (schedStep c st b)

def initConc : Conc2State :=
  { cache := [], uploads := 0, t1 := TPhase.atCheck, t2 := TPhase.atCheck }

/- ## Gemini send (`clients.py`, `send_to_gemini`, lines 171-203) -/

inductive PyExc where
  | connError (msg : String)
  | valueError (msg : String)
  | otherError (msg : String)
deriving DecidableEq, Repr

structure GeminiResponse where
  parts : List String
deriving DecidableEq, Repr

/-- Behavior of one `chat_session.send_message` call: the provider either
returns a response object or raises. -/
inductive SendBehavior where
  | returns (resp : GeminiResponse)
  | raises (msg : String)
deriving DecidableEq, Repr

/-- `response.text` concatenates the content parts. -/
def joinParts : List String → String
  | [] => ""
  | [p] => p
  | p :: ps => p ++ joinParts ps

/-- `send_to_gemini` (clients.py lines 171-203). The guard clauses raise
`ConnectionError` (no chat session) and `ValueError` (empty input) before the
`try` block. Inside the `try` block, an empty-parts response raises
`ValueError("Gemini response blocked or empty")` — but that raise happens
inside the same `try` whose blanket `except Exception` handler (line 198)
catches every `Exception`, `ValueError` included, and re-raises
`ConnectionError("Gemini API call failed: " + str(e))`. The blocked case
therefore leaves this function as a `ConnectionError`, exactly like a
provider exception. -/
def send_to_gemini (session_up : Bool) (user_text : String) (beh : SendBehavior) :
    Except PyExc String :=
  if session_up = false then Except.error (PyExc.connError cChatUnavail)
  else if user_text = "" then Except.error (PyExc.valueError cEmptyMsg)
  else
    match beh with
    | SendBehavior.raises m => Except.error (PyExc.connError (cApiFailedPre ++ m))
    | SendBehavior.returns resp =>
      if resp.parts = [] then
        Except.error (PyExc.connError (cApiFailedPre ++ cBlockedMsg))
      else Except.ok (joinParts resp.parts)

structure HttpResult where
  status : Nat
  replyText : Option String
  errorMsg : Option String
deriving DecidableEq, Repr

/-- The Gemini-call section of `handle_chat` in `routes.py` (lines 273-300),
given the derived `user_text`: `ConnectionError` maps to 503 echoing the
exception text, `ValueError` to 400 with the fixed refusal, any other
exception to 500 with a generic message. -/
def handle_chat_gemini (session_up : Bool) (user_text : String) (beh : SendBehavior) :
    HttpResult :=
  if session_up = false then { status := 503, replyText := none, errorMsg := some cChatUnavail }
  else
    match send_to_gemini session_up user_text beh with
    | Except.ok t => { status := 200, replyText := some t, errorMsg := none }
    | Except.error (PyExc.connError m) =>
      { status := 503, replyText := none, errorMsg := some m }
    | Except.error (PyExc.valueError _) =>
      { status := 400, replyText := none, errorMsg := some cChatRefusal }
    | Except.error (PyExc.otherError _) =>
      { status := 500, replyText := none, errorMsg := some cProcessTrouble }

/- ## Speak endpoint (`routes.py`, `speak_text`, lines 186-210) -/

/-- `speak_text`: missing `text` field is a 400, a whitespace-only `text` is
stripped and rejected with 400 before any provider call; `synth_ok` abstracts
the synthesis call (success returns audio, modelled as a bare 200; any
exception maps to 500). -/
def speak_text (tts_up : Bool) (textField : Option String) (synth_ok : Bool) : HttpResult :=
  if tts_up = false then { status := 503, replyText := none, errorMsg := some cTtsUnavail }
  else
    match textField with
    | none => { status := 400, replyText := none, errorMsg := some cMissingText }
    | some t =>
      if pyStrip t = "" then { status := 400, replyText := none, errorMsg := some cEmptyText }
      else if synth_ok then { status := 200, replyText := none, errorMsg := none }
      else { status := 500, replyText := none, errorMsg := some cSynthFailedPre }

/- ## Chapter assistant endpoint (`routes.py`, `ask_chapter_assistant`,
lines 303-342) -/

structure AskResult where
  status : Nat
  replyText : Option String
  errorMsg : Option String
  calledResolve : Bool
  sentMessage : Option String
deriving DecidableEq, Repr

/-- `ask_chapter_assistant`. The request body is modelled by
`query : Option String` — `none` when the JSON body is missing/falsy or has
no `query` key (the 400 branch), `some q` when a `query` string is present
(a dict holding the key is truthy). The chapter id is not validated against
any set of known chapters; the handler calls
`get_or_create_gemini_session` for every request carrying a query
(`calledResolve` records this), answers 503 when that returns `None`, and
otherwise sends the query string unchanged (`sentMessage`) into the chapter
session. A reply equal to the sentinel after `strip().upper()` is replaced
by the fixed scope-refusal message; an exception from the send maps to 500.
The outer `none` propagates a build whose polling loop has not returned. -/
def ask_chapter_assistant (env : BuildEnv) (st : CacheState) (c : Nat)
    (query : Option String) (beh : SendBehavior) : Option (AskResult × CacheState) :=
  match query with
  | none =>
    some ({ status := 400, replyText := none, errorMsg := some cMissingQuery,
            calledResolve := false, sentMessage := none }, st)
  | some q =>
    match get_or_create_gemini_session env st c with
    | none => none
    | some (none, st2) =>
      some ({ status := 503, replyText := some cBuildApology, errorMsg := none,
              calledResolve := true, sentMessage := none }, st2)
    | some (some _, st2) =>
      match beh with
      | SendBehavior.raises _ =>
        some ({ status := 500, replyText := some cSendApology, errorMsg := none,
                calledResolve := true, sentMessage := some q }, st2)
      | SendBehavior.returns resp =>
        let raw := joinParts resp.parts
        let reply := if pyUpper (pyStrip raw) = cNOT_IN_SCOPE then cScopeRefusal else raw
        some ({ status := 200, replyText := some reply, errorMsg := none,
                calledResolve := true, sentMessage := some q }, st2)

/- ## HTML chapter route (`routes.py`, `chapter`, lines 355-365) -/

def valid_chapters : List Nat := [1, 2, 3, 4]

/-- HTTP status of `GET /chapter/<n>`: 404 outside `valid_chapters`, else the
template renders (200). This is the only place the valid set is checked. -/
def chapter (chapter_num : Nat) : Nat :=
  if valid_chapters.contains chapter_num then 200 else 404

/- ## Concrete environments and inputs used by witnesses -/

def st0 : CacheState := { sessions := [], uploads := 0 }

def stHit : CacheState := { sessions := [(1, 0)], uploads := 1 }

def envGood : BuildEnv :=
  { contentExists := true, uploadOk := true, fileTrace := fun _ => cACTIVE,
    waitFuel := 1, startChatOk := true }

def envNoFile : BuildEnv :=
  { contentExists := false, uploadOk := true, fileTrace := fun _ => cACTIVE,
    waitFuel := 1, startChatOk := true }

def wHello : String := "hello"

def wSpace : String := "   "

def wSent : String := "  not_in_scope  "

def wMimeWebmOpus : String := "audio/webm;codecs=opus"

def wFileWebm : String := "x.webm"

def wFileFlac : String := "a.flac"

def wMimeAmr : String := "audio/amr"

def wFileAmr : String := "clip.amr"

def traceW : Nat → String := fun i => if i < 2 then cPROCESSING else cFAILEDSTATE

/-- Result record produced by the chapter-assistant endpoint on the
whitespace-query witness input. -/
def resW : AskResult :=
  { status := 200, replyText := some wHello, errorMsg := none,
    calledResolve := true, sentMessage := some wSpace }

/- ## Helper lemmas -/

/-- On a trace that reports PROCESSING forever, the polling loop of
`wait_for_files_active` is still running after any number of polls. -/
theorem pollLoop_const_processing (fuel i : Nat) :
    pollLoop (fun _ => cPROCESSING) fuel i = none := by
  induction fuel generalizing i with
  | zero => rfl
  | succ n ih =>
    simp only [pollLoop, if_pos rfl]
    exact ih (i + 1)

/-- If the asset trace first leaves PROCESSING at index `k` (counting from
the poll index `i`), the polling loop returns the state observed there as
soon as the poll budget covers `k + 1` polls. -/
theorem pollLoop_exit (trace : Nat → String) :
    ∀ (k i fuel : Nat), (∀ j, j < k → trace (i + j) = cPROCESSING) →
      trace (i + k) ≠ cPROCESSING → k + 1 ≤ fuel →
      pollLoop trace fuel i = some (trace (i + k)) := by
  intro k
  induction k with
  | zero =>
    intro i fuel _ hk hf
    cases fuel with
    | zero => omega
    | succ f =>
      simp only [Nat.add_zero] at hk ⊢
      simp only [pollLoop]
      rw [if_neg hk]
  | succ n ih =>
    intro i fuel hall hk hf
    cases fuel with
    | zero => omega
    | succ f =>
      have h0 : trace i = cPROCESSING := by simpa using hall 0 (Nat.succ_pos n)
      simp only [pollLoop, if_pos h0]
      have h1 : ∀ j, j < n → trace (i + 1 + j) = cPROCESSING := by
        intro j hj
        have := hall (j + 1) (Nat.succ_lt_succ hj)
        have heq : i + (j + 1) = i + 1 + j := by omega
        rwa [heq] at this
      have h2 : trace (i + 1 + n) ≠ cPROCESSING := by
        have heq : i + (n + 1) = i + 1 + n := by omega
        rwa [heq] at hk
      have h3 : n + 1 ≤ f := by omega
      have hfin := ih (i + 1) f h1 h2 h3
      have heq : i + 1 + n = i + (n + 1) := by omega
      rwa [heq] at hfin

/-- When the cache misses on `c` and every stage of the build succeeds, the
call returns a fresh session tagged with the current upload counter and
writes it into the cache. -/
theorem build_succeeds (env : BuildEnv) (st : CacheState) (c : Nat)
    (hl : lookupSession st.sessions c = none) (hok : buildOk env) :
    get_or_create_gemini_session env st c
      = some (some st.uploads,
          { sessions := insertSession st.sessions c st.uploads,
            uploads := st.uploads + 1 }) := by
  obtain ⟨h1, h2, h3, h4⟩ := hok
  simp [get_or_create_gemini_session, hl, h1, h2, h3, h4]

/- ## Claim C1 -/

/-- Claim C1 (counterexample): the session cache is a plain dict with no
lock, so the interleaving in which both threads run their cache check before
either build completes leaves both threads building at once, performs two
document uploads, and hands the two callers two different contexts (session
tags 0 and 1) — refuting single-flight for two concurrent first-time
queries. -/
theorem C1_counterexample :
    (runSched 1 [true, false] initConc).t1 = TPhase.atBuild ∧
    (runSched 1 [true, false] initConc).t2 = TPhase.atBuild ∧
    (runSched 1 [true, false, true, false] initConc).uploads = 2 ∧
    (runSched 1 [true, false, true, false] initConc).t1 = TPhase.finished 0 ∧
    (runSched 1 [true, false, true, false] initConc).t2 = TPhase.finished 1 := by
  decide

/-- Claim C1 (amended): deduplication happens only through the initial cache
check, so when the two first-time requests are serialized — the first
request's build completes before the second request's check runs — exactly
one upload is performed and both callers receive the same context (session
tag 0). No guard enforces this under concurrent interleavings. -/
theorem C1_amended_serial_single_flight :
    (runSched 1 [true, true, false] initConc).uploads = 1 ∧
    (runSched 1 [true, true, false] initConc).t1 = TPhase.finished 0 ∧
    (runSched 1 [true, true, false] initConc).t2 = TPhase.finished 0 := by
  decide

/- ## Claim C2 -/

/-- Claim C2 (counterexample): no attempt or time budget exists after which
the readiness polling of `wait_for_files_active` has always returned — on an
asset that stays PROCESSING the loop simply never exits, rather than failing
explicitly on exhaustion of a bound. -/
theorem C2_counterexample : ¬ polling_is_bounded := by
  rintro ⟨N, h⟩
  have hx := h (fun _ => cPROCESSING)
  simp [wait_for_files_active, pollLoop_const_processing] at hx

/-- Claim C2 (amended): the polling loop is unbounded in attempts; it
terminates exactly when the asset trace first leaves PROCESSING, say at poll
`k`, after which it returns success precisely when the observed state is
ACTIVE and otherwise reports failure (the caller then aborts the session
build); it never fails by exhausting an attempt bound. -/
theorem C2_amended_theorem :
    ∀ (trace : Nat → String) (k fuel : Nat),
    (∀ j, j < k → trace j = cPROCESSING) → trace k ≠ cPROCESSING → k + 1 ≤ fuel →
    wait_for_files_active trace fuel = some (if trace k = cACTIVE then true else false) := by
  intro trace k fuel hall hk hf
  have hp := pollLoop_exit trace k 0 fuel (by simpa using hall) (by simpa using hk) hf
  rw [Nat.zero_add] at hp
  unfold wait_for_files_active
  rw [hp]
  by_cases h : trace k = cACTIVE
  · simp [h]
  · simp [h]

/-- Claim C2 witness: a trace that is PROCESSING for two polls and FAILED on
the third makes the loop return failure at budget 3. -/
theorem C2_amended_witness :
    (∀ j, j < 2 → traceW j = cPROCESSING) ∧ traceW 2 ≠ cPROCESSING ∧ 2 + 1 ≤ 3 ∧
    wait_for_files_active traceW 3 = some false := by
  refine ⟨by decide, by decide, by decide, ?_⟩
  have h := C2_amended_theorem traceW 2 3 (by decide) (by decide) (by decide)
  exact h.trans (by decide)

/- ## Claim C3 -/

/-- Claim C3 (confirmed): whenever `get_or_create_gemini_session` returns a
failure (`None`) the cache mapping is exactly as before the call — the
chapter is back to absent, not parked in a dead failed state — and the
mapping changes only when a fully successful build returns a fresh session;
moreover after any failure a retry under an environment in which every build
stage succeeds does build and cache a session. -/
theorem C3_failure_leaves_cache_unchanged :
    ∀ (env : BuildEnv) (st : CacheState) (c : Nat) (r : Option Nat) (st2 : CacheState),
    get_or_create_gemini_session env st c = some (r, st2) →
    ((r = none → st2.sessions = st.sessions) ∧
     (st2.sessions ≠ st.sessions →
        r = some st.uploads ∧ st2.sessions = insertSession st.sessions c st.uploads) ∧
     (r = none → ∀ env2, buildOk env2 →
        get_or_create_gemini_session env2 st2 c
          = some (some st2.uploads,
              { sessions := insertSession st2.sessions c st2.uploads,
                uploads := st2.uploads + 1 }))) := by
  intro env st c r st2 h
  unfold get_or_create_gemini_session at h
  cases hl : lookupSession st.sessions c with
  | some s =>
    rw [hl] at h
    injection h with h
    injection h with h1 h2
    subst h1
    subst h2
    refine ⟨fun hc => absurd hc (Option.some_ne_none s), fun hne => absurd rfl hne,
      fun hc => absurd hc (Option.some_ne_none s)⟩
  | none =>
    rw [hl] at h
    by_cases hce : env.contentExists = false
    · rw [if_pos hce] at h
      injection h with h
      injection h with h1 h2
      subst h1
      subst h2
      refine ⟨fun _ => rfl, fun hne => absurd rfl hne, fun _ env2 hok => ?_⟩
      exact build_succeeds env2 st c hl hok
    · rw [if_neg hce] at h
      by_cases hup : env.uploadOk = false
      · rw [if_pos hup] at h
        injection h with h
        injection h with h1 h2
        subst h1
        subst h2
        refine ⟨fun _ => rfl, fun hne => absurd rfl hne, fun _ env2 hok => ?_⟩
        exact build_succeeds env2 (bump st) c hl hok
      · rw [if_neg hup] at h
        cases hw : wait_for_files_active env.fileTrace env.waitFuel with
        | none =>
          rw [hw] at h
          exact absurd h (by simp)
        | some b =>
          rw [hw] at h
          cases b with
          | false =>
            injection h with h
            injection h with h1 h2
            subst h1
            subst h2
            refine ⟨fun _ => rfl, fun hne => absurd rfl hne, fun _ env2 hok => ?_⟩
            exact build_succeeds env2 (bump st) c hl hok
          | true =>
            by_cases hsc : env.startChatOk = false
            · rw [if_pos hsc] at h
              injection h with h
              injection h with h1 h2
              subst h1
              subst h2
              refine ⟨fun _ => rfl, fun hne => absurd rfl hne, fun _ env2 hok => ?_⟩
              exact build_succeeds env2 (bump st) c hl hok
            · rw [if_neg hsc] at h
              injection h with h
              injection h with h1 h2
              subst h1
              subst h2
              refine ⟨fun hc => absurd hc (Option.some_ne_none _), fun _ => ⟨rfl, rfl⟩,
                fun hc => absurd hc (Option.some_ne_none _)⟩

/-- Claim C3 witness: a build that fails on the missing content file leaves
the empty cache empty, and the retry under a fully successful environment
builds and caches session 0 for chapter 1. -/
theorem C3_witness :
    get_or_create_gemini_session envNoFile st0 1 = some (none, st0) ∧
    buildOk envGood ∧
    get_or_create_gemini_session envGood st0 1
      = some (some 0, { sessions := [(1, 0)], uploads := 1 }) := by
  have h : get_or_create_gemini_session envNoFile st0 1 = some (none, st0) := by decide
  have hok : buildOk envGood := ⟨rfl, rfl, rfl, rfl⟩
  refine ⟨h, hok, ?_⟩
  have := (C3_failure_leaves_cache_unchanged envNoFile st0 1 none st0 h).2.2 rfl envGood hok
  exact this

/- ## Claim C4 -/

/-- Claim C4 (confirmed): when the chapter already has a cached session, the
call returns that session and the entire cache state — the uploads counter
included — unchanged: the hit path performs zero uploads and zero grounding
calls. -/
theorem C4_cache_hit_no_provider_calls :
    ∀ (env : BuildEnv) (st : CacheState) (c s : Nat),
    lookupSession st.sessions c = some s →
    get_or_create_gemini_session env st c = some (some s, st) := by
  intro env st c s h
  unfold get_or_create_gemini_session
  rw [h]

/-- Claim C4 witness: chapter 1 cached with session 0 is served from the
cache with the upload counter untouched. -/
theorem C4_witness :
    lookupSession stHit.sessions 1 = some 0 ∧
    get_or_create_gemini_session envGood stHit 1 = some (some 0, stHit) := by
  exact ⟨by decide, C4_cache_hit_no_provider_calls envGood stHit 1 0 (by decide)⟩

/- ## Claim C5 -/

/-- Claim C5 (counterexample): chapter 99 is outside the valid set, yet the
assistant endpoint does reach the session-resolution logic
(`calledResolve = true`) and answers 503 — not 404 — when the chapter has no
content file. -/
theorem C5_counterexample :
    valid_chapters.contains 99 = false ∧
    ask_chapter_assistant envNoFile st0 99 (some wHello) (SendBehavior.raises wHello)
      = some ({ status := 503, replyText := some cBuildApology, errorMsg := none,
                calledResolve := true, sentMessage := none }, st0) := by
  exact ⟨by decide, by decide⟩

/-- Claim C5 (amended): the assistant endpoint performs no chapter-id
validation — every request carrying a query reaches
`get_or_create_gemini_session`; when the chapter has no content file the
build fails before any upload (the cache state is returned unchanged) and
the endpoint answers 503 with the apology body. The 404-on-invalid-id check
exists only on the HTML page route `/chapter/<n>`. -/
theorem C5_amended_theorem :
    ∀ (env : BuildEnv) (st : CacheState) (c : Nat) (q : String) (beh : SendBehavior),
    env.contentExists = false → lookupSession st.sessions c = none →
    (ask_chapter_assistant env st c (some q) beh
       = some ({ status := 503, replyText := some cBuildApology, errorMsg := none,
                 calledResolve := true, sentMessage := none }, st)
     ∧ ∀ n, valid_chapters.contains n = false → chapter n = 404) := by
  intro env st c q beh hce hlk
  constructor
  · have hb : get_or_create_gemini_session env st c = some (none, st) := by
      simp [get_or_create_gemini_session, hlk, hce]
    simp [ask_chapter_assistant, hb]
  · intro n hn
    unfold chapter
    rw [hn]
    simp

/-- Claim C5 witness: the amended behavior at chapter 99 with an empty cache
and a missing content file. -/
theorem C5_witness :
    envNoFile.contentExists = false ∧ lookupSession st0.sessions 99 = none ∧
    ask_chapter_assistant envNoFile st0 99 (some wSpace) (SendBehavior.raises wSpace)
      = some ({ status := 503, replyText := some cBuildApology, errorMsg := none,
                calledResolve := true, sentMessage := none }, st0) ∧
    chapter 99 = 404 := by
  have h := C5_amended_theorem envNoFile st0 99 wSpace (SendBehavior.raises wSpace)
    (by decide) (by decide)
  exact ⟨by decide, by decide, h.1, h.2 99 (by decide)⟩

/- ## Claim C6 -/

/-- Claim C6 (confirmed): whenever the provider reply, stripped of
surrounding whitespace and upper-cased, equals the NOT_IN_SCOPE sentinel,
the endpoint's client-visible `reply_text` is the fixed scope-refusal
message, and that message is never the verbatim provider reply. -/
theorem C6_sentinel_normalized :
    ∀ (env : BuildEnv) (st : CacheState) (c : Nat) (q t : String) (sess : Nat)
      (st2 : CacheState),
    get_or_create_gemini_session env st c = some (some sess, st2) →
    pyUpper (pyStrip t) = cNOT_IN_SCOPE →
    (ask_chapter_assistant env st c (some q) (SendBehavior.returns { parts := [t] })
       = some ({ status := 200, replyText := some cScopeRefusal, errorMsg := none,
                 calledResolve := true, sentMessage := some q }, st2)
     ∧ some cScopeRefusal ≠ some t) := by
  intro env st c q t sess st2 hb ht
  constructor
  · simp [ask_chapter_assistant, hb, joinParts, ht]
  · intro hEq
    injection hEq with hEq
    subst hEq
    exact absurd ht (by decide)

/-- Claim C6 witness: the reply with two spaces around a lower-case
rendering of the sentinel is replaced by the scope-refusal message on a
cache-hit chapter. -/
theorem C6_witness :
    get_or_create_gemini_session envGood stHit 1 = some (some 0, stHit) ∧
    pyUpper (pyStrip wSent) = cNOT_IN_SCOPE ∧
    ask_chapter_assistant envGood stHit 1 (some wHello)
        (SendBehavior.returns { parts := [wSent] })
      = some ({ status := 200, replyText := some cScopeRefusal, errorMsg := none,
                calledResolve := true, sentMessage := some wHello }, stHit) := by
  have h := C6_sentinel_normalized envGood stHit 1 wHello wSent 0 stHit (by decide) (by decide)
  exact ⟨by decide, by decide, h.1⟩

/- ## Claim C7 -/

/-- Claim C7 (code_bug evaluation): with an initialized chat session and a
provider response carrying no content parts, `send_to_gemini` surfaces a
`ConnectionError` — the blocked-case `ValueError` is swallowed by its own
enclosing `except Exception` handler and re-raised as `ConnectionError` —
so `handle_chat` answers 503 echoing the provider text, never reaching its
400 fixed-refusal `ValueError` branch. -/
theorem C7_blocked_reply_maps_to_503 :
    send_to_gemini true wHello (SendBehavior.returns { parts := [] })
      = Except.error (PyExc.connError (cApiFailedPre ++ cBlockedMsg)) ∧
    handle_chat_gemini true wHello (SendBehavior.returns { parts := [] })
      = { status := 503, replyText := none, errorMsg := some (cApiFailedPre ++ cBlockedMsg) } := by
  exact ⟨rfl, by decide⟩

/- ## Claim C8 -/

/-- Claim C8 (confirmed): the mimetype classification is authoritative
whenever it is not `ENCODING_UNSPECIFIED` (the filename is ignored), the
filename is consulted exactly when the mimetype classification is
`ENCODING_UNSPECIFIED` (in particular when the mimetype is absent), and the
three round-trips of the claim hold: webm/opus mimetype yields WEBM_OPUS, a
lone `.flac` filename yields FLAC, and no information yields
`ENCODING_UNSPECIFIED`. -/
theorem C8_classifier_structure :
    (∀ (m f : Option String),
        classify_mimetype m ≠ AudioEncoding.ENCODING_UNSPECIFIED →
        get_stt_encoding m f = classify_mimetype m) ∧
    (∀ (m f : Option String),
        classify_mimetype m = AudioEncoding.ENCODING_UNSPECIFIED →
        get_stt_encoding m f = classify_filename f) ∧
    get_stt_encoding (some wMimeWebmOpus) (some wFileWebm) = AudioEncoding.WEBM_OPUS ∧
    get_stt_encoding none (some wFileFlac) = AudioEncoding.FLAC ∧
    get_stt_encoding none none = AudioEncoding.ENCODING_UNSPECIFIED := by
  refine ⟨?_, ?_, by decide, by decide, by decide⟩
  · intro m f h
    simp [get_stt_encoding, h]
  · intro m f h
    simp [get_stt_encoding, h]

/-- Claim C8 witness: a recognized mimetype wins over a conflicting
filename, and an unrecognized mimetype defers to the filename. -/
theorem C8_witness :
    classify_mimetype (some wMimeWebmOpus) ≠ AudioEncoding.ENCODING_UNSPECIFIED ∧
    get_stt_encoding (some wMimeWebmOpus) (some wFileFlac)
      = classify_mimetype (some wMimeWebmOpus) ∧
    classify_mimetype (some wMimeAmr) = AudioEncoding.ENCODING_UNSPECIFIED ∧
    get_stt_encoding (some wMimeAmr) (some wFileFlac) = classify_filename (some wFileFlac) := by
  refine ⟨by decide, ?_, by decide, ?_⟩
  · exact C8_classifier_structure.1 (some wMimeWebmOpus) (some wFileFlac) (by decide)
  · exact C8_classifier_structure.2.1 (some wMimeAmr) (some wFileFlac) (by decide)

/- ## Claim C9 -/

/-- Claim C9 (counterexample): the legacy chat handler in `src/app.py`, one
of the two callers the claim covers, classifies an AMR blob as
`ENCODING_UNSPECIFIED` and still proceeds to the speech provider with that
unspecified encoding — its 415-style rejection is commented out — instead of
rejecting the request. -/
theorem C9_counterexample :
    legacy_get_encoding (some wMimeAmr) (some wFileAmr) = AudioEncoding.ENCODING_UNSPECIFIED ∧
    legacy_audio_dispatch true 100 (some wMimeAmr) (some wFileAmr)
      = AudioDispatch.proceed AudioEncoding.ENCODING_UNSPECIFIED := by
  exact ⟨by decide, by decide⟩

/-- Claim C9 (amended): of the two chat-handler generations, only the
`routes.py` handler rejects an undeterminable codec with 415 before any
provider call; the legacy `src/app.py` handler always proceeds to the
provider with whatever encoding its classifier produced, the unspecified one
included. -/
theorem C9_amended_theorem :
    ∀ (mt fn : Option String) (len : Nat), len ≠ 0 →
    ((get_stt_encoding mt fn = AudioEncoding.ENCODING_UNSPECIFIED →
        routes_audio_dispatch true len mt fn = AudioDispatch.reject 415 cEncodingErr) ∧
     legacy_audio_dispatch true len mt fn
       = AudioDispatch.proceed (legacy_get_encoding mt fn)) := by
  intro mt fn len hlen
  constructor
  · intro henc
    simp [routes_audio_dispatch, hlen, henc]
  · simp [legacy_audio_dispatch, hlen]

/-- Claim C9 witness: the AMR blob is rejected with 415 by the `routes.py`
handler and passed through by the legacy handler. -/
theorem C9_witness :
    (100 : Nat) ≠ 0 ∧
    get_stt_encoding (some wMimeAmr) (some wFileAmr) = AudioEncoding.ENCODING_UNSPECIFIED ∧
    routes_audio_dispatch true 100 (some wMimeAmr) (some wFileAmr)
      = AudioDispatch.reject 415 cEncodingErr ∧
    legacy_audio_dispatch true 100 (some wMimeAmr) (some wFileAmr)
      = AudioDispatch.proceed (legacy_get_encoding (some wMimeAmr) (some wFileAmr)) := by
  have h := C9_amended_theorem (some wMimeAmr) (some wFileAmr) 100 (by decide)
  exact ⟨by decide, by decide, h.1 (by decide), h.2⟩

/- ## Claim C10 -/

/-- Claim C10 (confirmed): any request whose body carries a `query` string —
empty or whitespace-only included — is never answered 400 by the
chapter-assistant endpoint, and whatever reaches the chapter session is the
query string verbatim, with no trimming; by contrast the speak endpoint
strips its `text` field and rejects a whitespace-only value with 400. -/
theorem C10_empty_query_not_rejected :
    (∀ (env : BuildEnv) (st : CacheState) (c : Nat) (q : String) (beh : SendBehavior)
        (res : AskResult) (st2 : CacheState),
        ask_chapter_assistant env st c (some q) beh = some (res, st2) →
        res.status ≠ 400 ∧ (res.sentMessage = none ∨ res.sentMessage = some q)) ∧
    (∀ (q : String) (synth_ok : Bool), pyStrip q = "" →
        speak_text true (some q) synth_ok
          = { status := 400, replyText := none, errorMsg := some cEmptyText }) := by
  constructor
  · intro env st c q beh res st2 h
    unfold ask_chapter_assistant at h
    cases hb : get_or_create_gemini_session env st c with
    | none =>
      rw [hb] at h
      exact absurd h (by simp)
    | some p =>
      obtain ⟨ropt, st3⟩ := p
      rw [hb] at h
      cases ropt with
      | none =>
        injection h with h
        injection h with h1 h2
        subst h1
        exact ⟨by simp, Or.inl rfl⟩
      | some sess =>
        cases beh with
        | raises m =>
          injection h with h
          injection h with h1 h2
          subst h1
          exact ⟨by simp, Or.inr rfl⟩
        | returns resp =>
          injection h with h
          injection h with h1 h2
          subst h1
          exact ⟨by simp, Or.inr rfl⟩
  · intro q synth_ok hq
    simp [speak_text, hq]

/-- Claim C10 witness: a three-space query is accepted (status 200) and
forwarded verbatim to the chapter session, while the speak endpoint answers
400 to the same three-space text. -/
theorem C10_witness :
    ask_chapter_assistant envGood stHit 1 (some wSpace)
        (SendBehavior.returns { parts := [wHello] }) = some (resW, stHit) ∧
    (resW.status ≠ 400 ∧ (resW.sentMessage = none ∨ resW.sentMessage = some wSpace)) ∧
    pyStrip wSpace = "" ∧
    speak_text true (some wSpace) true
      = { status := 400, replyText := none, errorMsg := some cEmptyText } := by
  have h1 : ask_chapter_assistant envGood stHit 1 (some wSpace)
      (SendBehavior.returns { parts := [wHello] }) = some (resW, stHit) := by decide
  exact ⟨h1, C10_empty_query_not_rejected.1 envGood stHit 1 wSpace _ resW stHit h1,
    by decide, C10_empty_query_not_rejected.2 wSpace true (by decide)⟩

end InteractiveTrainer
